import Mathlib

/-!
Toolchain variant resolution in `cc/config/global.go`.

A shallow embedding of `setSdclangVars` and `replaceFirst` from
`cc/config/global.go`, followed by the properties established about them.

Modelling conventions.

* `os.Getenv` is a total function `String → String`; an unset variable reads
  as the empty string, as in Go.
* Opening a file and running `json.Decoder.Decode` on it is an input of the
  model: `Load α` records whether the open failed, the decode failed, or a
  value was decoded.
* A value decoded into an `interface{}` is a `GoVal`; a Go map is an
  association list read with `List.lookup`.
* A Go `panic` is the `error` side of `Except Panic`.  `x.(T)` on a value of
  another dynamic type is the panic `Panic.typeAssertion`.
* The closures handed to `pctx.VariableFunc` are kept as functions of the
  runtime configuration, in registration order.
-/

namespace CcConfig

/-! ## Data model -/

/-- A value as `encoding/json` stores it in an `interface{}`.  JSON numbers are
decoded to `float64`; every finite `float64` is a rational and the resolver
never inspects one. -/
inductive GoVal where
  | nil
  | bool (b : Bool)
  | float64 (x : Rat)
  | string (s : String)
  | slice (xs : List GoVal)
  | map (kvs : List (String × GoVal))

/-- The ways the code of this file panics. -/
inductive Panic where
  /-- The statement `panic("...")` with a string. -/
  | msg (s : String)
  /-- The statement `panic(fmt.Errorf(format, args...))`. -/
  | errorf (format : String) (args : List String)
  /-- A failed type assertion `x.(T)`. -/
  | typeAssertion
  /-- An index expression `slice[i]` out of range. -/
  | indexOutOfRange
  deriving DecidableEq, Repr

/-- Outcome of `os.Open` followed by `Decoder.Decode`. -/
inductive Load (α : Type) where
  | openFailed
  | decodeFailed
  | decoded (a : α)

/-- The local struct type `sdclangAEConfig`. -/
structure SdclangAEConfig where
  SDCLANG_AE_FLAG : String

/-- Modelled from the spec: the runtime configuration object `android.Config`,
whose declaration is outside this file.  The closures use only its
environment lookup `Getenv`, which returns the empty string for an unset
variable.  The closures receive it as an `interface{}` and assert
`config.(android.Config)`; the consumer always passes one. -/
structure Config where
  Getenv : String → String

/-- The function type taken by `pctx.VariableFunc`; Go's `(string, error)`. -/
abbrev VariableFunc := Config → Except String String

/-- The variables that change between the top of `setSdclangVars` and its
sanity checks: the package variable `SDClang` and four locals. -/
structure SdclangState where
  SDClang : Bool
  sdclangPath : String
  sdclangPath2 : String
  sdclangFlags : String
  sdclangFlags2 : String

/-- What a completed `setSdclangVars` leaves behind: the package variable
`SDClang` and the `pctx.VariableFunc` registrations, in order. -/
structure SdclangResult where
  SDClang : Bool
  vars : List (String × VariableFunc)

/-! ## Library functions -/

/-- Go's `strconv.ParseBool`; `none` is the syntax error. -/
def ParseBool (str : String) : Option Bool :=
  if str = "1" ∨ str = "t" ∨ str = "T" ∨ str = "true" ∨ str = "TRUE" ∨ str = "True" then
    some true
  else if str = "0" ∨ str = "f" ∨ str = "F" ∨ str = "false" ∨ str = "FALSE" ∨ str = "False" then
    some false
  else
    none

/-- The type assertion `v.(bool)`. -/
def assertBool : GoVal → Except Panic Bool
  | .bool b => .ok b
  | _ => .error .typeAssertion

/-- The type assertion `v.(string)`. -/
def assertString : GoVal → Except Panic String
  | .string s => .ok s
  | _ => .error .typeAssertion

/-- The type assertion `v.(map[string]interface{})`. -/
def assertMap : GoVal → Except Panic (List (String × GoVal))
  | .map kvs => .ok kvs
  | _ => .error .typeAssertion

/-! ## `setSdclangVars` -/

/-- The statement `if _, ok := devConfig[key]; ok { x = devConfig[key].(bool) }`:
the new value of `x`. -/
def optionalBool (devConfig : List (String × GoVal)) (key : String) (cur : Bool) :
    Except Panic Bool :=
  match devConfig.lookup key with
  | some v => assertBool v
  | none => .ok cur

/-- The statement `if _, ok := devConfig[key]; ok { x = devConfig[key].(string) }`:
the new value of `x`. -/
def optionalString (devConfig : List (String × GoVal)) (key : String) (cur : String) :
    Except Panic String :=
  match devConfig.lookup key with
  | some v => assertString v
  | none => .ok cur

/-- The statement
`if _, ok := devConfig[key]; ok { x = devConfig[key].(string) } else { panic(message) }`. -/
def requiredString (devConfig : List (String × GoVal)) (key : String) (message : String) :
    Except Panic String :=
  match devConfig.lookup key with
  | some v => assertString v
  | none => .error (.msg message)

/-- Lines 273-301: the default block. -/
def defaultBlock (config : List (String × GoVal)) (st : SdclangState) :
    Except Panic SdclangState :=
  match config.lookup "default" with
  | some dev => do
    let devConfig ← assertMap dev
    let sdclang ← optionalBool devConfig "SDCLANG" st.SDClang
    let sdclangPath ← requiredString devConfig "SDCLANG_PATH"
      "SDCLANG_PATH is required in the default block"
    let sdclangPath2 ← requiredString devConfig "SDCLANG_PATH_2"
      "SDCLANG_PATH_2 is required in the default block"
    let sdclangFlags ← optionalString devConfig "SDCLANG_FLAGS" st.sdclangFlags
    let sdclangFlags2 ← optionalString devConfig "SDCLANG_FLAGS_2" st.sdclangFlags2
    pure ⟨sdclang, sdclangPath, sdclangPath2, sdclangFlags, sdclangFlags2⟩
  | none => .error (.msg "Default block is required in the SD Clang config file")

/-- Lines 302-325: the device specific block. -/
def productBlock (config : List (String × GoVal)) (product : String) (st : SdclangState) :
    Except Panic SdclangState :=
  match config.lookup product with
  | some dev => do
    let devConfig ← assertMap dev
    let sdclang ← optionalBool devConfig "SDCLANG" st.SDClang
    let sdclangPath ← optionalString devConfig "SDCLANG_PATH" st.sdclangPath
    let sdclangPath2 ← optionalString devConfig "SDCLANG_PATH_2" st.sdclangPath2
    let sdclangFlags ← optionalString devConfig "SDCLANG_FLAGS" st.sdclangFlags
    let sdclangFlags2 ← optionalString devConfig "SDCLANG_FLAGS_2" st.sdclangFlags2
    pure ⟨sdclang, sdclangPath, sdclangPath2, sdclangFlags, sdclangFlags2⟩
  | none => .ok st

/-- Lines 252-262: the auto-enablement flag. -/
def loadAEFlag : Load SdclangAEConfig → String
  | .decoded aeConfig => aeConfig.SDCLANG_AE_FLAG
  | _ => ""

/-- Lines 264-331: the SD Clang config file, applied to the state `st`. -/
def loadSdclangConfig (product : String) (st : SdclangState) :
    Load GoVal → Except Panic SdclangState
  | .decoded sdclangConfig => do
    let config ← assertMap sdclangConfig
    let st ← defaultBlock config st
    productBlock config product st
  | _ => .ok st

/-- Lines 333-338: the `SDCLANG` environment override. -/
def overrideSDClang (env : String → String) (cur : Bool) : Bool :=
  if env "SDCLANG" ≠ "" then
    match ParseBool (env "SDCLANG") with
    | some override => override
    | none => cur
  else cur

/-- The closure registered as `SDClangBin`. -/
def SDClangBin (sdclangPath : String) : VariableFunc := fun config =>
  if config.Getenv "SDCLANG_PATH" ≠ "" then .ok (config.Getenv "SDCLANG_PATH")
  else .ok sdclangPath

/-- The closure registered as `SDClangBin2`. -/
def SDClangBin2 (sdclangPath2 : String) : VariableFunc := fun config =>
  if config.Getenv "SDCLANG_PATH_2" ≠ "" then .ok (config.Getenv "SDCLANG_PATH_2")
  else .ok sdclangPath2

/-- The closure registered as `SDClangFlags`. -/
def SDClangFlags (sdclangAEFlag sdclangFlags : String) : VariableFunc := fun config =>
  if config.Getenv "SDCLANG_COMMON_FLAGS" ≠ "" then .ok (config.Getenv "SDCLANG_COMMON_FLAGS")
  else .ok (sdclangAEFlag ++ " " ++ sdclangFlags)

/-- The closure registered as `SDClangFlags2`. -/
def SDClangFlags2 (sdclangAEFlag sdclangFlags2 : String) : VariableFunc := fun config =>
  if config.Getenv "SDCLANG_COMMON_FLAGS_2" ≠ "" then
    .ok (config.Getenv "SDCLANG_COMMON_FLAGS_2")
  else .ok (sdclangAEFlag ++ " " ++ sdclangFlags2)

/-- Lines 237-241: the variables on entry to the resolution.  `SDClang` is the
package variable as `setSdclangVars` finds it. -/
def initialState (SDClang : Bool) (env : String → String) : SdclangState :=
  ⟨SDClang, env "SDCLANG_PATH", env "SDCLANG_PATH2", "", ""⟩

/-- The function `setSdclangVars`.  `SDClang` is the package variable on entry,
`env` is `os.Getenv`, `aeFile` and `configFile` are the outcomes of loading the
files named by `SDCLANG_AE_CONFIG` and `SDCLANG_CONFIG` under
`ANDROID_BUILD_TOP`. -/
def setSdclangVars (SDClang : Bool) (env : String → String)
    (aeFile : Load SdclangAEConfig) (configFile : Load GoVal) :
    Except Panic SdclangResult := do
  let product := env "TARGET_PRODUCT"
  let sdclangAEFlag := loadAEFlag aeFile
  let st ← loadSdclangConfig product (initialState SDClang env) configFile
  let sdclang := overrideSDClang env st.SDClang
  if st.sdclangPath = "" ∧ env "SDCLANG_PATH" = "" then
    .error (.msg "SDCLANG_PATH can not be empty")
  else if st.sdclangPath2 = "" ∧ env "SDCLANG_PATH_2" = "" then
    .error (.msg "SDCLANG_PATH_2 can not be empty")
  else
    pure ⟨sdclang,
      [("SDClangBin", SDClangBin st.sdclangPath),
       ("SDClangBin2", SDClangBin2 st.sdclangPath2),
       ("SDClangFlags", SDClangFlags sdclangAEFlag st.sdclangFlags),
       ("SDClangFlags2", SDClangFlags2 sdclangAEFlag st.sdclangFlags2)]⟩

/-- The package variable `SDClang` as initialised at line 127. -/
def SDClangDefault : Bool := true

/-- Evaluation of a registered variable by name under a runtime configuration;
`none` when no such variable was registered. -/
def evalVar (r : SdclangResult) (name : String) (c : Config) : Option (Except String String) :=
  (r.vars.lookup name).map (fun f => f c)

/-! ## `replaceFirst` -/

/-- The function `replaceFirst`: the panic it raises, if any, and the contents
of the slice afterwards. -/
def replaceFirst (slice : List String) (from_ to_ : String) : Option Panic × List String :=
  match slice with
  | [] => (some .indexOutOfRange, slice)
  | s0 :: rest =>
    if s0 ≠ from_ then
      (some (.errorf "Expected %q, found %q" [from_, to_]), slice)
    else
      (none, to_ :: rest)

/-! ## Reading a decoded document by layers

The definitions of this section do not come from the code.  They say, in the
words of the configuration format, what a document asks for; the theorems
compare `setSdclangVars` with them. -/

/-- An entry that is absent or a boolean. -/
def isBoolOrAbsent : Option GoVal → Bool
  | none => true
  | some (.bool _) => true
  | _ => false

/-- An entry that is absent or a string. -/
def isStringOrAbsent : Option GoVal → Bool
  | none => true
  | some (.string _) => true
  | _ => false

/-- A block whose five fields, where present, have the type the format gives
them: `SDCLANG` a boolean, the paths and the flags strings. -/
def blockWellTyped (devConfig : List (String × GoVal)) : Bool :=
  isBoolOrAbsent (devConfig.lookup "SDCLANG") &&
  isStringOrAbsent (devConfig.lookup "SDCLANG_PATH") &&
  isStringOrAbsent (devConfig.lookup "SDCLANG_PATH_2") &&
  isStringOrAbsent (devConfig.lookup "SDCLANG_FLAGS") &&
  isStringOrAbsent (devConfig.lookup "SDCLANG_FLAGS_2")

/-- The entry `block` of a document is absent or a well-typed block. -/
def entryWellTyped (config : List (String × GoVal)) (block : String) : Bool :=
  match config.lookup block with
  | none => true
  | some (.map devConfig) => blockWellTyped devConfig
  | some _ => false

/-- A load outcome whose consulted parts have the expected JSON types: a
decoded document is an object, and its `default` entry and its entry for
`product`, where present, are well-typed blocks. -/
def wellTyped (product : String) : Load GoVal → Bool
  | .decoded (.map config) => entryWellTyped config "default" && entryWellTyped config product
  | .decoded _ => false
  | _ => true

/-- The field `key` of the entry `block` of a document, if both exist. -/
def field (config : List (String × GoVal)) (block key : String) : Option GoVal :=
  match config.lookup block with
  | some (.map devConfig) => devConfig.lookup key
  | _ => none

/-- A string value patched by one entry: the entry when it is a string,
otherwise the value so far. -/
def patchString (entry : Option GoVal) (cur : String) : String :=
  match entry with
  | some (.string s) => s
  | _ => cur

/-- A boolean value patched by one entry: the entry when it is a boolean,
otherwise the value so far. -/
def patchBool (entry : Option GoVal) (cur : Bool) : Bool :=
  match entry with
  | some (.bool b) => b
  | _ => cur

/-- The string the JSON layers give for `key`: the product block's value when
a document was decoded and that block has the key, otherwise the default
block's value when it has the key, otherwise `init`. -/
def layeredString (configFile : Load GoVal) (product key init : String) : String :=
  match configFile with
  | .decoded (.map config) =>
    patchString (field config product key) (patchString (field config "default" key) init)
  | _ => init

/-- The boolean the JSON layers give for `SDCLANG`: the product block's value
when a document was decoded and that block has the key, otherwise the default
block's value when it has the key, otherwise `init`. -/
def layeredBool (configFile : Load GoVal) (product : String) (init : Bool) : Bool :=
  match configFile with
  | .decoded (.map config) =>
    patchBool (field config product "SDCLANG") (patchBool (field config "default" "SDCLANG") init)
  | _ => init

/-- A decoded document (an object) without a `default` entry. -/
def noDefault : Load GoVal → Bool
  | .decoded (.map config) => (config.lookup "default").isNone
  | _ => false

/-- A decoded document whose default block lacks `SDCLANG_PATH` or
`SDCLANG_PATH_2`. -/
def lacksRequiredPath : Load GoVal → Bool
  | .decoded (.map config) =>
    match config.lookup "default" with
    | some (.map devConfig) =>
      (devConfig.lookup "SDCLANG_PATH").isNone || (devConfig.lookup "SDCLANG_PATH_2").isNone
    | _ => false
  | _ => false

/-- One block applied to a state as a sparse patch. -/
def patchState (config : List (String × GoVal)) (block : String) (st : SdclangState) :
    SdclangState :=
  ⟨patchBool (field config block "SDCLANG") st.SDClang,
   patchString (field config block "SDCLANG_PATH") st.sdclangPath,
   patchString (field config block "SDCLANG_PATH_2") st.sdclangPath2,
   patchString (field config block "SDCLANG_FLAGS") st.sdclangFlags,
   patchString (field config block "SDCLANG_FLAGS_2") st.sdclangFlags2⟩

/-- The state the JSON layers give, field by field. -/
def layeredState (configFile : Load GoVal) (product : String) (st : SdclangState) :
    SdclangState :=
  ⟨layeredBool configFile product st.SDClang,
   layeredString configFile product "SDCLANG_PATH" st.sdclangPath,
   layeredString configFile product "SDCLANG_PATH_2" st.sdclangPath2,
   layeredString configFile product "SDCLANG_FLAGS" st.sdclangFlags,
   layeredString configFile product "SDCLANG_FLAGS_2" st.sdclangFlags2⟩

/-- A key read through a product block `p` laid over a default block `d`: the
product block's string when it has the key, otherwise the default block's
string when it has the key, otherwise the empty string. -/
def sparsePatch (p d : List (String × GoVal)) (key : String) : String :=
  patchString (p.lookup key) (patchString (d.lookup key) "")

/-- An environment given by a finite list of settings; every other variable is
unset. -/
def envOf (kvs : List (String × String)) : String → String :=
  fun k => (kvs.lookup k).getD ""

/-! ## Auxiliary facts about the embedding -/

theorem bind_eq_ok {ε α β : Type} (x : Except ε α) (f : α → Except ε β) (b : β) :
    (x >>= f) = .ok b ↔ ∃ a, x = .ok a ∧ f a = .ok b := by
  cases x <;> simp [bind, Except.bind]

theorem pure_eq_ok {ε α : Type} (a b : α) :
    (pure a : Except ε α) = .ok b ↔ a = b := by
  simp [pure, Except.pure]

theorem isError_iff_not_ok {ε α : Type} (x : Except ε α) :
    (∃ e, x = .error e) ↔ ¬ ∃ a, x = .ok a := by
  cases x <;> simp

theorem assertBool_cases (v : GoVal) :
    (∃ b, assertBool v = .ok b) ∨ assertBool v = .error .typeAssertion := by
  cases v <;> simp [assertBool]

theorem assertString_cases (v : GoVal) :
    (∃ s, assertString v = .ok s) ∨ assertString v = .error .typeAssertion := by
  cases v <;> simp [assertString]

theorem optionalBool_eq_ok (devConfig : List (String × GoVal)) (key : String) (cur b : Bool) :
    optionalBool devConfig key cur = .ok b ↔
      isBoolOrAbsent (devConfig.lookup key) = true ∧ b = patchBool (devConfig.lookup key) cur := by
  unfold optionalBool
  cases h : devConfig.lookup key with
  | none => simp [isBoolOrAbsent, patchBool, eq_comm]
  | some v => cases v <;> simp [isBoolOrAbsent, patchBool, assertBool, eq_comm]

theorem optionalString_eq_ok (devConfig : List (String × GoVal)) (key cur s : String) :
    optionalString devConfig key cur = .ok s ↔
      isStringOrAbsent (devConfig.lookup key) = true ∧
        s = patchString (devConfig.lookup key) cur := by
  unfold optionalString
  cases h : devConfig.lookup key with
  | none => simp [isStringOrAbsent, patchString, eq_comm]
  | some v => cases v <;> simp [isStringOrAbsent, patchString, assertString, eq_comm]

theorem requiredString_eq_ok (devConfig : List (String × GoVal)) (key message s : String) :
    requiredString devConfig key message = .ok s ↔
      devConfig.lookup key ≠ none ∧ isStringOrAbsent (devConfig.lookup key) = true ∧
        s = patchString (devConfig.lookup key) "" := by
  unfold requiredString
  cases h : devConfig.lookup key with
  | none => simp
  | some v => cases v <;> simp [isStringOrAbsent, patchString, assertString, eq_comm]

theorem patchString_of_present (entry : Option GoVal) (cur : String)
    (h : entry ≠ none) (ht : isStringOrAbsent entry = true) :
    patchString entry "" = patchString entry cur := by
  cases entry with
  | none => exact absurd rfl h
  | some v => cases v <;> simp_all [patchString, isStringOrAbsent]

theorem productBlock_eq_ok (config : List (String × GoVal)) (product : String)
    (st st' : SdclangState) :
    productBlock config product st = .ok st' ↔
      entryWellTyped config product = true ∧ st' = patchState config product st := by
  unfold productBlock entryWellTyped patchState field
  cases h : config.lookup product with
  | none =>
    simp only [patchBool, patchString, true_and, Except.ok.injEq]
    constructor <;> (intro h; subst h; rfl)
  | some dev =>
    cases dev
    case map devConfig =>
      simp only [bind_eq_ok, pure_eq_ok, optionalBool_eq_ok, optionalString_eq_ok,
        blockWellTyped, Bool.and_eq_true, assertMap, Except.ok.injEq, exists_eq_left']
      constructor
      · rintro ⟨b, ⟨h1, rfl⟩, p, ⟨h2, rfl⟩, p2, ⟨h3, rfl⟩, f, ⟨h4, rfl⟩, f2, ⟨h5, rfl⟩, rfl⟩
        exact ⟨⟨⟨⟨⟨h1, h2⟩, h3⟩, h4⟩, h5⟩, rfl⟩
      · rintro ⟨⟨⟨⟨⟨h1, h2⟩, h3⟩, h4⟩, h5⟩, rfl⟩
        exact ⟨_, ⟨h1, rfl⟩, _, ⟨h2, rfl⟩, _, ⟨h3, rfl⟩, _, ⟨h4, rfl⟩, _, ⟨h5, rfl⟩, rfl⟩
    all_goals simp [assertMap, bind, Except.bind]

theorem defaultBlock_eq_ok (config : List (String × GoVal)) (st st' : SdclangState) :
    defaultBlock config st = .ok st' ↔
      (∃ devConfig, config.lookup "default" = some (.map devConfig) ∧
        devConfig.lookup "SDCLANG_PATH" ≠ none ∧ devConfig.lookup "SDCLANG_PATH_2" ≠ none) ∧
      entryWellTyped config "default" = true ∧ st' = patchState config "default" st := by
  unfold defaultBlock entryWellTyped patchState field
  cases h : config.lookup "default" with
  | none => simp
  | some dev =>
    cases dev
    case map devConfig =>
      simp only [bind_eq_ok, pure_eq_ok, optionalBool_eq_ok, optionalString_eq_ok,
        requiredString_eq_ok, blockWellTyped, Bool.and_eq_true, assertMap, Except.ok.injEq,
        exists_eq_left', Option.some.injEq, GoVal.map.injEq]
      constructor
      · rintro ⟨b, ⟨h1, rfl⟩, p, ⟨n2, h2, rfl⟩, p2, ⟨n3, h3, rfl⟩, f, ⟨h4, rfl⟩, f2, ⟨h5, rfl⟩, rfl⟩
        refine ⟨⟨n2, n3⟩, ⟨⟨⟨⟨h1, h2⟩, h3⟩, h4⟩, h5⟩, ?_⟩
        rw [patchString_of_present _ st.sdclangPath (by simpa using n2) h2,
          patchString_of_present _ st.sdclangPath2 (by simpa using n3) h3]
      · rintro ⟨⟨n2, n3⟩, ⟨⟨⟨⟨h1, h2⟩, h3⟩, h4⟩, h5⟩, rfl⟩
        refine ⟨_, ⟨h1, rfl⟩, _, ⟨n2, h2, rfl⟩, _, ⟨n3, h3, rfl⟩, _, ⟨h4, rfl⟩, _, ⟨h5, rfl⟩, ?_⟩
        rw [patchString_of_present _ st.sdclangPath (by simpa using n2) h2,
          patchString_of_present _ st.sdclangPath2 (by simpa using n3) h3]
    all_goals simp [assertMap, bind, Except.bind]

/-- A default block without one of the required paths makes `defaultBlock`
panic, with a panic that does not depend on the state it is applied to. -/
theorem defaultBlock_error_of_lacks (config devConfig : List (String × GoVal))
    (hd : config.lookup "default" = some (.map devConfig))
    (h : devConfig.lookup "SDCLANG_PATH" = none ∨ devConfig.lookup "SDCLANG_PATH_2" = none) :
    ∃ e, ∀ st, defaultBlock config st = .error e := by
  have hb : (∃ f : Bool → Bool, ∀ cur, optionalBool devConfig "SDCLANG" cur = .ok (f cur)) ∨
      ∀ cur, optionalBool devConfig "SDCLANG" cur = .error .typeAssertion := by
    unfold optionalBool
    cases devConfig.lookup "SDCLANG" with
    | none => exact Or.inl ⟨id, fun _ => rfl⟩
    | some v =>
      rcases assertBool_cases v with ⟨b, hb⟩ | hb
      · exact Or.inl ⟨fun _ => b, fun _ => hb⟩
      · exact Or.inr fun _ => hb
  rcases hb with ⟨f, hf⟩ | hf
  · cases hp : devConfig.lookup "SDCLANG_PATH" with
    | none =>
      exact ⟨.msg "SDCLANG_PATH is required in the default block", fun st => by
        simp [defaultBlock, hd, assertMap, hf, requiredString, hp, bind, Except.bind]⟩
    | some v =>
      have hp2 : devConfig.lookup "SDCLANG_PATH_2" = none := by
        rcases h with h | h
        · rw [hp] at h; cases h
        · exact h
      rcases assertString_cases v with ⟨s, hs⟩ | hs
      · exact ⟨.msg "SDCLANG_PATH_2 is required in the default block", fun st => by
          simp [defaultBlock, hd, assertMap, hf, requiredString, hp, hp2, hs, bind, Except.bind]⟩
      · exact ⟨.typeAssertion, fun st => by
          simp [defaultBlock, hd, assertMap, hf, requiredString, hp, hs, bind, Except.bind]⟩
  · exact ⟨.typeAssertion, fun st => by
      simp [defaultBlock, hd, assertMap, hf, bind, Except.bind]⟩

theorem loadSdclangConfig_eq_ok (product : String) (st st' : SdclangState)
    (configFile : Load GoVal) :
    loadSdclangConfig product st configFile = .ok st' ↔
      wellTyped product configFile = true ∧ noDefault configFile = false ∧
        lacksRequiredPath configFile = false ∧ st' = layeredState configFile product st := by
  cases configFile with
  | openFailed =>
    simp only [loadSdclangConfig, wellTyped, noDefault, lacksRequiredPath, true_and,
      Except.ok.injEq]
    constructor <;> (intro h; subst h; rfl)
  | decodeFailed =>
    simp only [loadSdclangConfig, wellTyped, noDefault, lacksRequiredPath, true_and,
      Except.ok.injEq]
    constructor <;> (intro h; subst h; rfl)
  | decoded v =>
    cases v
    case map config =>
      have hl : layeredState (.decoded (.map config)) product st =
          patchState config product (patchState config "default" st) := rfl
      simp only [loadSdclangConfig, assertMap, bind_eq_ok, Except.ok.injEq, exists_eq_left',
        defaultBlock_eq_ok, productBlock_eq_ok, hl, wellTyped, noDefault, lacksRequiredPath,
        Bool.and_eq_true]
      cases hd : config.lookup "default" with
      | none => simp
      | some dev =>
        cases dev
        case map d =>
          simp only [Option.some.injEq, GoVal.map.injEq, exists_eq_left', Option.isNone_some,
            Bool.or_eq_false_iff, Option.isNone_eq_false_iff, Option.isSome_iff_ne_none, true_and]
          constructor
          · rintro ⟨a, ⟨⟨n1, n2⟩, hw, rfl⟩, hp, rfl⟩
            exact ⟨⟨hw, hp⟩, ⟨n1, n2⟩, rfl⟩
          · rintro ⟨⟨hw, hp⟩, ⟨n1, n2⟩, rfl⟩
            exact ⟨_, ⟨⟨n1, n2⟩, hw, rfl⟩, hp, rfl⟩
        all_goals simp [entryWellTyped, hd]
    all_goals simp [loadSdclangConfig, wellTyped, assertMap, bind, Except.bind]

theorem setSdclangVars_eq_ok (SDClang : Bool) (env : String → String)
    (aeFile : Load SdclangAEConfig) (configFile : Load GoVal) (r : SdclangResult) :
    setSdclangVars SDClang env aeFile configFile = .ok r ↔
      ∃ st, loadSdclangConfig (env "TARGET_PRODUCT") (initialState SDClang env) configFile
          = .ok st ∧
        ¬ (st.sdclangPath = "" ∧ env "SDCLANG_PATH" = "") ∧
        ¬ (st.sdclangPath2 = "" ∧ env "SDCLANG_PATH_2" = "") ∧
        r = ⟨overrideSDClang env st.SDClang,
          [("SDClangBin", SDClangBin st.sdclangPath),
           ("SDClangBin2", SDClangBin2 st.sdclangPath2),
           ("SDClangFlags", SDClangFlags (loadAEFlag aeFile) st.sdclangFlags),
           ("SDClangFlags2", SDClangFlags2 (loadAEFlag aeFile) st.sdclangFlags2)]⟩ := by
  unfold setSdclangVars
  simp only [bind_eq_ok]
  constructor
  · rintro ⟨st, hst, h⟩
    refine ⟨st, hst, ?_⟩
    split_ifs at h with h1 h2
    exact ⟨h1, h2, ((pure_eq_ok _ _).mp h).symm⟩
  · rintro ⟨st, hst, h1, h2, rfl⟩
    refine ⟨st, hst, ?_⟩
    rw [if_neg h1, if_neg h2]
    rfl

/-- The full description of a completed run: the document passes the JSON
steps, neither sanity check fires, and the result is built from the layered
values. -/
theorem setSdclangVars_eq_ok_layered (SDClang : Bool) (env : String → String)
    (aeFile : Load SdclangAEConfig) (configFile : Load GoVal) (r : SdclangResult) :
    setSdclangVars SDClang env aeFile configFile = .ok r ↔
      wellTyped (env "TARGET_PRODUCT") configFile = true ∧ noDefault configFile = false ∧
      lacksRequiredPath configFile = false ∧
      ¬ ((layeredState configFile (env "TARGET_PRODUCT") (initialState SDClang env)).sdclangPath
          = "" ∧ env "SDCLANG_PATH" = "") ∧
      ¬ ((layeredState configFile (env "TARGET_PRODUCT") (initialState SDClang env)).sdclangPath2
          = "" ∧ env "SDCLANG_PATH_2" = "") ∧
      r = ⟨overrideSDClang env
            (layeredState configFile (env "TARGET_PRODUCT") (initialState SDClang env)).SDClang,
          [("SDClangBin", SDClangBin
              (layeredState configFile (env "TARGET_PRODUCT")
                (initialState SDClang env)).sdclangPath),
           ("SDClangBin2", SDClangBin2
              (layeredState configFile (env "TARGET_PRODUCT")
                (initialState SDClang env)).sdclangPath2),
           ("SDClangFlags", SDClangFlags (loadAEFlag aeFile)
              (layeredState configFile (env "TARGET_PRODUCT")
                (initialState SDClang env)).sdclangFlags),
           ("SDClangFlags2", SDClangFlags2 (loadAEFlag aeFile)
              (layeredState configFile (env "TARGET_PRODUCT")
                (initialState SDClang env)).sdclangFlags2)]⟩ := by
  rw [setSdclangVars_eq_ok]
  simp only [loadSdclangConfig_eq_ok]
  constructor
  · rintro ⟨st, ⟨hw, hn, hl, rfl⟩, h1, h2, rfl⟩
    exact ⟨hw, hn, hl, h1, h2, rfl⟩
  · rintro ⟨hw, hn, hl, h1, h2, rfl⟩
    exact ⟨_, ⟨hw, hn, hl, rfl⟩, h1, h2, rfl⟩

theorem evalVar_registered (b : Bool) (p p2 ae f f2 : String) (c : Config) :
    evalVar ⟨b, [("SDClangBin", SDClangBin p), ("SDClangBin2", SDClangBin2 p2),
        ("SDClangFlags", SDClangFlags ae f), ("SDClangFlags2", SDClangFlags2 ae f2)]⟩
        "SDClangBin" c = some (SDClangBin p c) ∧
    evalVar ⟨b, [("SDClangBin", SDClangBin p), ("SDClangBin2", SDClangBin2 p2),
        ("SDClangFlags", SDClangFlags ae f), ("SDClangFlags2", SDClangFlags2 ae f2)]⟩
        "SDClangBin2" c = some (SDClangBin2 p2 c) ∧
    evalVar ⟨b, [("SDClangBin", SDClangBin p), ("SDClangBin2", SDClangBin2 p2),
        ("SDClangFlags", SDClangFlags ae f), ("SDClangFlags2", SDClangFlags2 ae f2)]⟩
        "SDClangFlags" c = some (SDClangFlags ae f c) ∧
    evalVar ⟨b, [("SDClangBin", SDClangBin p), ("SDClangBin2", SDClangBin2 p2),
        ("SDClangFlags", SDClangFlags ae f), ("SDClangFlags2", SDClangFlags2 ae f2)]⟩
        "SDClangFlags2" c = some (SDClangFlags2 ae f2 c) :=
  ⟨rfl, rfl, rfl, rfl⟩

/-- The four registered variables of a completed run, evaluated. -/
theorem evalVar_of_ok (SDClang : Bool) (env : String → String)
    (aeFile : Load SdclangAEConfig) (configFile : Load GoVal) (r : SdclangResult) (c : Config)
    (hr : setSdclangVars SDClang env aeFile configFile = .ok r) :
    evalVar r "SDClangBin" c = some (.ok
      (if c.Getenv "SDCLANG_PATH" ≠ "" then c.Getenv "SDCLANG_PATH"
       else layeredString configFile (env "TARGET_PRODUCT") "SDCLANG_PATH"
         (initialState SDClang env).sdclangPath)) ∧
    evalVar r "SDClangBin2" c = some (.ok
      (if c.Getenv "SDCLANG_PATH_2" ≠ "" then c.Getenv "SDCLANG_PATH_2"
       else layeredString configFile (env "TARGET_PRODUCT") "SDCLANG_PATH_2"
         (initialState SDClang env).sdclangPath2)) ∧
    evalVar r "SDClangFlags" c = some (.ok
      (if c.Getenv "SDCLANG_COMMON_FLAGS" ≠ "" then c.Getenv "SDCLANG_COMMON_FLAGS"
       else loadAEFlag aeFile ++ " " ++
         layeredString configFile (env "TARGET_PRODUCT") "SDCLANG_FLAGS" "")) ∧
    evalVar r "SDClangFlags2" c = some (.ok
      (if c.Getenv "SDCLANG_COMMON_FLAGS_2" ≠ "" then c.Getenv "SDCLANG_COMMON_FLAGS_2"
       else loadAEFlag aeFile ++ " " ++
         layeredString configFile (env "TARGET_PRODUCT") "SDCLANG_FLAGS_2" "")) := by
  obtain ⟨-, -, -, -, -, rfl⟩ := (setSdclangVars_eq_ok_layered _ _ _ _ _).mp hr
  obtain ⟨e1, e2, e3, e4⟩ := evalVar_registered
    (overrideSDClang env
      (layeredState configFile (env "TARGET_PRODUCT") (initialState SDClang env)).SDClang)
    (layeredState configFile (env "TARGET_PRODUCT") (initialState SDClang env)).sdclangPath
    (layeredState configFile (env "TARGET_PRODUCT") (initialState SDClang env)).sdclangPath2
    (loadAEFlag aeFile)
    (layeredState configFile (env "TARGET_PRODUCT") (initialState SDClang env)).sdclangFlags
    (layeredState configFile (env "TARGET_PRODUCT") (initialState SDClang env)).sdclangFlags2 c
  rw [e1, e2, e3, e4]
  unfold SDClangBin SDClangBin2 SDClangFlags SDClangFlags2
  refine ⟨?_, ?_, ?_, ?_⟩ <;> split_ifs <;> rfl

/-- What `replaceFirst` does when the first element is the expected one: no
panic, the first element replaced, the rest and the length untouched. -/
theorem replaceFirst_of_eq (s0 : String) (rest : List String) (to_ : String) :
    replaceFirst (s0 :: rest) s0 to_ = (none, to_ :: rest) := by
  simp [replaceFirst]

/-- What `replaceFirst` does when the first element is not the expected one:
it panics with the arguments `from` and `to`, and the slice is unchanged. -/
theorem replaceFirst_of_ne (s0 : String) (rest : List String) (from_ to_ : String)
    (h : s0 ≠ from_) :
    replaceFirst (s0 :: rest) from_ to_ =
      (some (.errorf "Expected %q, found %q" [from_, to_]), s0 :: rest) := by
  simp [replaceFirst, h]

/-! ## Properties of `setSdclangVars` and `replaceFirst` -/

/-! ### The default block alone -/

/-- C1 (amended): with a document whose default block holds
`SDCLANG_PATH = "A"` and `SDCLANG_PATH_2 = "B"` and no flags field, no block
for the product, and none of the four path and flags variables set in the
runtime configuration, `setSdclangVars` completes, `SDClangBin` is `"A"`,
`SDClangBin2` is `"B"`, and `SDClangFlags` and `SDClangFlags2` are both the
auto-enablement flag followed by one space.  The process environment and the
auto-enablement document are arbitrary. -/
theorem default_only_document (SDClang : Bool) (env : String → String)
    (aeFile : Load SdclangAEConfig) (config devConfig : List (String × GoVal)) (c : Config)
    (hd : config.lookup "default" = some (.map devConfig))
    (hprod : env "TARGET_PRODUCT" ≠ "default" → config.lookup (env "TARGET_PRODUCT") = none)
    (hA : devConfig.lookup "SDCLANG_PATH" = some (.string "A"))
    (hB : devConfig.lookup "SDCLANG_PATH_2" = some (.string "B"))
    (hS : isBoolOrAbsent (devConfig.lookup "SDCLANG") = true)
    (hF : devConfig.lookup "SDCLANG_FLAGS" = none)
    (hF2 : devConfig.lookup "SDCLANG_FLAGS_2" = none)
    (hc1 : c.Getenv "SDCLANG_PATH" = "") (hc2 : c.Getenv "SDCLANG_PATH_2" = "")
    (hc3 : c.Getenv "SDCLANG_COMMON_FLAGS" = "")
    (hc4 : c.Getenv "SDCLANG_COMMON_FLAGS_2" = "") :
    ∃ r, setSdclangVars SDClang env aeFile (.decoded (.map config)) = .ok r ∧
      evalVar r "SDClangBin" c = some (.ok "A") ∧
      evalVar r "SDClangBin2" c = some (.ok "B") ∧
      evalVar r "SDClangFlags" c = some (.ok (loadAEFlag aeFile ++ " ")) ∧
      evalVar r "SDClangFlags2" c = some (.ok (loadAEFlag aeFile ++ " ")) := by
  have hL : ∀ init,
      layeredString (.decoded (.map config)) (env "TARGET_PRODUCT") "SDCLANG_PATH" init = "A" ∧
      layeredString (.decoded (.map config)) (env "TARGET_PRODUCT") "SDCLANG_PATH_2" init = "B" ∧
      layeredString (.decoded (.map config)) (env "TARGET_PRODUCT") "SDCLANG_FLAGS" "" = "" ∧
      layeredString (.decoded (.map config)) (env "TARGET_PRODUCT") "SDCLANG_FLAGS_2" "" = ""
      := by
    intro init
    by_cases hp : env "TARGET_PRODUCT" = "default"
    · simp [layeredString, field, hp, hd, hA, hB, hF, hF2, patchString]
    · simp [layeredString, field, hprod hp, hd, hA, hB, hF, hF2, patchString]
  have hwt : wellTyped (env "TARGET_PRODUCT") (.decoded (.map config)) = true := by
    by_cases hp : env "TARGET_PRODUCT" = "default"
    · simp [wellTyped, entryWellTyped, blockWellTyped, isStringOrAbsent, hp, hd,
        hA, hB, hS, hF, hF2]
    · simp [wellTyped, entryWellTyped, blockWellTyped, isStringOrAbsent,
        hprod hp, hd, hA, hB, hS, hF, hF2]
  obtain ⟨hA', hB', hF', hF2'⟩ := hL (initialState SDClang env).sdclangPath
  obtain ⟨-, hB'', -, -⟩ := hL (initialState SDClang env).sdclangPath2
  have hok := (setSdclangVars_eq_ok_layered SDClang env aeFile (.decoded (.map config)) _).mpr
    ⟨hwt, by simp [noDefault, hd], by simp [lacksRequiredPath, hd, hA, hB],
      by simp [layeredState, hA'], by simp [layeredState, hB''], rfl⟩
  refine ⟨_, hok, ?_⟩
  obtain ⟨e1, e2, e3, e4⟩ := evalVar_of_ok SDClang env aeFile (.decoded (.map config)) _ c hok
  rw [e1, e2, e3, e4, hA', hB'', hF', hF2']
  simp [hc1, hc2, hc3, hc4]

theorem default_only_document_witness :
    ∃ r, setSdclangVars true (envOf [("TARGET_PRODUCT", "sdm845")]) (.decoded ⟨"-ae"⟩)
        (.decoded (.map [("default", .map [("SDCLANG_PATH", .string "A"),
          ("SDCLANG_PATH_2", .string "B")])])) = .ok r ∧
      evalVar r "SDClangBin" ⟨envOf []⟩ = some (.ok "A") ∧
      evalVar r "SDClangBin2" ⟨envOf []⟩ = some (.ok "B") ∧
      evalVar r "SDClangFlags" ⟨envOf []⟩ = some (.ok "-ae ") ∧
      evalVar r "SDClangFlags2" ⟨envOf []⟩ = some (.ok "-ae ") :=
  default_only_document true (envOf [("TARGET_PRODUCT", "sdm845")]) (.decoded ⟨"-ae"⟩)
    [("default", .map [("SDCLANG_PATH", .string "A"), ("SDCLANG_PATH_2", .string "B")])]
    [("SDCLANG_PATH", .string "A"), ("SDCLANG_PATH_2", .string "B")] ⟨envOf []⟩
    rfl (fun _ => rfl) rfl rfl rfl rfl rfl rfl rfl rfl rfl

theorem default_only_document_counterexample :
    ∃ r, setSdclangVars true (envOf []) (.decoded ⟨"-ae"⟩)
        (.decoded (.map [("default", .map [("SDCLANG_PATH", .string "A"),
          ("SDCLANG_PATH_2", .string "B")])])) = .ok r ∧
      evalVar r "SDClangFlags" ⟨envOf []⟩ = some (.ok "-ae ") ∧
      evalVar r "SDClangFlags2" ⟨envOf []⟩ = some (.ok "-ae ") ∧
      "-ae " ≠ loadAEFlag (.decoded ⟨"-ae"⟩) :=
  ⟨_, rfl, rfl, rfl, by decide⟩

/-! ### The product block as a sparse patch -/

/-- C2 (amended): with a valid default block `d` (well-typed, both required
paths present), a block `p` for the current product whose fields, where
present, have the types of the format, and no path or flags override in the
environment, the JSON steps do not abort and each of `SDCLANG_PATH`,
`SDCLANG_PATH_2`, `SDCLANG_FLAGS`, `SDCLANG_FLAGS_2` resolves to the product
block's value when that block has the key and to the default block's value
otherwise.  A field missing from the product block is not a fatal error of its
own, but the run does abort exactly when a path so resolved is empty (the
sanity checks after the JSON steps); otherwise it completes and the four
variables evaluate to the resolved values. -/
theorem product_block_sparse_patch (SDClang : Bool) (env : String → String)
    (aeFile : Load SdclangAEConfig) (config d p : List (String × GoVal)) (c : Config)
    (hd : config.lookup "default" = some (.map d))
    (hp : config.lookup (env "TARGET_PRODUCT") = some (.map p))
    (hdt : blockWellTyped d = true)
    (hd1 : d.lookup "SDCLANG_PATH" ≠ none) (hd2 : d.lookup "SDCLANG_PATH_2" ≠ none)
    (hpt : blockWellTyped p = true)
    (he1 : env "SDCLANG_PATH" = "") (he2 : env "SDCLANG_PATH_2" = "")
    (hc1 : c.Getenv "SDCLANG_PATH" = "") (hc2 : c.Getenv "SDCLANG_PATH_2" = "")
    (hc3 : c.Getenv "SDCLANG_COMMON_FLAGS" = "")
    (hc4 : c.Getenv "SDCLANG_COMMON_FLAGS_2" = "") :
    (∃ st, loadSdclangConfig (env "TARGET_PRODUCT") (initialState SDClang env)
          (.decoded (.map config)) = .ok st ∧
        st.sdclangPath = sparsePatch p d "SDCLANG_PATH" ∧
        st.sdclangPath2 = sparsePatch p d "SDCLANG_PATH_2" ∧
        st.sdclangFlags = sparsePatch p d "SDCLANG_FLAGS" ∧
        st.sdclangFlags2 = sparsePatch p d "SDCLANG_FLAGS_2") ∧
    ((∃ e, setSdclangVars SDClang env aeFile (.decoded (.map config)) = .error e) ↔
      sparsePatch p d "SDCLANG_PATH" = "" ∨ sparsePatch p d "SDCLANG_PATH_2" = "") ∧
    (∀ r, setSdclangVars SDClang env aeFile (.decoded (.map config)) = .ok r →
      evalVar r "SDClangBin" c = some (.ok (sparsePatch p d "SDCLANG_PATH")) ∧
      evalVar r "SDClangBin2" c = some (.ok (sparsePatch p d "SDCLANG_PATH_2")) ∧
      evalVar r "SDClangFlags" c =
        some (.ok (loadAEFlag aeFile ++ " " ++ sparsePatch p d "SDCLANG_FLAGS")) ∧
      evalVar r "SDClangFlags2" c =
        some (.ok (loadAEFlag aeFile ++ " " ++ sparsePatch p d "SDCLANG_FLAGS_2"))) := by
  have hdt' := hdt
  simp only [blockWellTyped, Bool.and_eq_true] at hdt'
  obtain ⟨⟨⟨⟨-, ht1⟩, ht2⟩, -⟩, -⟩ := hdt'
  have hL1 : layeredString (.decoded (.map config)) (env "TARGET_PRODUCT") "SDCLANG_PATH"
      (initialState SDClang env).sdclangPath = sparsePatch p d "SDCLANG_PATH" := by
    simp only [layeredString, field, hd, hp, sparsePatch]
    rw [patchString_of_present _ (initialState SDClang env).sdclangPath hd1 ht1]
  have hL2 : layeredString (.decoded (.map config)) (env "TARGET_PRODUCT") "SDCLANG_PATH_2"
      (initialState SDClang env).sdclangPath2 = sparsePatch p d "SDCLANG_PATH_2" := by
    simp only [layeredString, field, hd, hp, sparsePatch]
    rw [patchString_of_present _ (initialState SDClang env).sdclangPath2 hd2 ht2]
  have hL3 : layeredString (.decoded (.map config)) (env "TARGET_PRODUCT") "SDCLANG_FLAGS" ""
      = sparsePatch p d "SDCLANG_FLAGS" := by
    simp only [layeredString, field, hd, hp, sparsePatch]
  have hL4 : layeredString (.decoded (.map config)) (env "TARGET_PRODUCT") "SDCLANG_FLAGS_2" ""
      = sparsePatch p d "SDCLANG_FLAGS_2" := by
    simp only [layeredString, field, hd, hp, sparsePatch]
  have hwt : wellTyped (env "TARGET_PRODUCT") (.decoded (.map config)) = true := by
    simp [wellTyped, entryWellTyped, hd, hp, hdt, hpt]
  have hnd : noDefault (.decoded (.map config)) = false := by simp [noDefault, hd]
  have hlr : lacksRequiredPath (.decoded (.map config)) = false := by
    simp [lacksRequiredPath, hd, Option.isSome_iff_ne_none, hd1, hd2]
  refine ⟨?_, ?_, ?_⟩
  · refine ⟨_, (loadSdclangConfig_eq_ok _ _ _ _).mpr ⟨hwt, hnd, hlr, rfl⟩, ?_, ?_, ?_, ?_⟩
    · exact hL1
    · exact hL2
    · exact hL3
    · exact hL4
  · rw [isError_iff_not_ok]
    simp only [setSdclangVars_eq_ok_layered, layeredState, exists_and_left, exists_eq, and_true,
      hwt, hnd, hlr, hL1, hL2, he1, he2, true_and]
    tauto
  · intro r hr
    obtain ⟨e1, e2, e3, e4⟩ := evalVar_of_ok SDClang env aeFile (.decoded (.map config)) r c hr
    rw [e1, e2, e3, e4, hL1, hL2, hL3, hL4]
    simp [hc1, hc2, hc3, hc4]

theorem product_block_sparse_patch_witness :
    ∃ r, setSdclangVars true (envOf [("TARGET_PRODUCT", "sdm845")]) .openFailed
        (.decoded (.map [("default", .map [("SDCLANG_PATH", .string "A"),
            ("SDCLANG_PATH_2", .string "B")]),
          ("sdm845", .map [("SDCLANG_PATH", .string "C")])])) = .ok r ∧
      evalVar r "SDClangBin" ⟨envOf []⟩ = some (.ok "C") ∧
      evalVar r "SDClangBin2" ⟨envOf []⟩ = some (.ok "B") ∧
      evalVar r "SDClangFlags" ⟨envOf []⟩ = some (.ok " ") ∧
      evalVar r "SDClangFlags2" ⟨envOf []⟩ = some (.ok " ") :=
  ⟨_, rfl,
    (product_block_sparse_patch true (envOf [("TARGET_PRODUCT", "sdm845")]) .openFailed
      [("default", .map [("SDCLANG_PATH", .string "A"), ("SDCLANG_PATH_2", .string "B")]),
        ("sdm845", .map [("SDCLANG_PATH", .string "C")])]
      [("SDCLANG_PATH", .string "A"), ("SDCLANG_PATH_2", .string "B")]
      [("SDCLANG_PATH", .string "C")] ⟨envOf []⟩
      rfl rfl rfl (Option.some_ne_none _) (Option.some_ne_none _)
      rfl rfl rfl rfl rfl rfl rfl).2.2 _ rfl⟩

/-- C2, as first stated, fails: with default block
`{SDCLANG_PATH: "", SDCLANG_PATH_2: "B"}` and an empty product block the
missing `SDCLANG_PATH` falls through to the empty default and the sanity check
panics, while the same document with `SDCLANG_PATH: "C"` in the product block
completes; and a product block with `SDCLANG_FLAGS: 5` over a default block
`{SDCLANG_PATH: "A", SDCLANG_PATH_2: "B"}` panics on the type assertion. -/
theorem product_block_sparse_patch_counterexample :
    setSdclangVars true (envOf [("TARGET_PRODUCT", "sdm845")]) .openFailed
        (.decoded (.map [("default", .map [("SDCLANG_PATH", .string ""),
            ("SDCLANG_PATH_2", .string "B")]),
          ("sdm845", .map [])])) = .error (.msg "SDCLANG_PATH can not be empty") ∧
    (∃ r, setSdclangVars true (envOf [("TARGET_PRODUCT", "sdm845")]) .openFailed
        (.decoded (.map [("default", .map [("SDCLANG_PATH", .string ""),
            ("SDCLANG_PATH_2", .string "B")]),
          ("sdm845", .map [("SDCLANG_PATH", .string "C")])])) = .ok r ∧
      evalVar r "SDClangBin" ⟨envOf []⟩ = some (.ok "C")) ∧
    setSdclangVars true (envOf [("TARGET_PRODUCT", "sdm845")]) .openFailed
        (.decoded (.map [("default", .map [("SDCLANG_PATH", .string "A"),
            ("SDCLANG_PATH_2", .string "B")]),
          ("sdm845", .map [("SDCLANG_FLAGS", .float64 5)])])) = .error .typeAssertion :=
  ⟨rfl, ⟨_, rfl, rfl⟩, rfl⟩

/-! ### The primary-path override -/

/-- C3 (amended): with `SDCLANG_PATH` set to a non-empty `Z` in the process
environment and in the runtime configuration, every completed run evaluates
`SDClangBin` to `Z`, whatever the variant document was; the primary-path sanity
check cannot fire, so the run completes exactly when the JSON steps do not
abort and the secondary path passes its own sanity check; in particular, with
no document or an undecodable one it completes as soon as `SDCLANG_PATH_2` is
non-empty. -/
theorem primary_path_override (SDClang : Bool) (env : String → String)
    (aeFile : Load SdclangAEConfig) (configFile : Load GoVal) (c : Config) (Z : String)
    (hZ : Z ≠ "") (he : env "SDCLANG_PATH" = Z) (hc : c.Getenv "SDCLANG_PATH" = Z) :
    (∀ r, setSdclangVars SDClang env aeFile configFile = .ok r →
      evalVar r "SDClangBin" c = some (.ok Z)) ∧
    ((∃ r, setSdclangVars SDClang env aeFile configFile = .ok r) ↔
      wellTyped (env "TARGET_PRODUCT") configFile = true ∧ noDefault configFile = false ∧
      lacksRequiredPath configFile = false ∧
      ¬ (layeredString configFile (env "TARGET_PRODUCT") "SDCLANG_PATH_2"
          (initialState SDClang env).sdclangPath2 = "" ∧ env "SDCLANG_PATH_2" = "")) ∧
    ((configFile = .openFailed ∨ configFile = .decodeFailed) → env "SDCLANG_PATH_2" ≠ "" →
      ∃ r, setSdclangVars SDClang env aeFile configFile = .ok r) := by
  have hiff : (∃ r, setSdclangVars SDClang env aeFile configFile = .ok r) ↔
      wellTyped (env "TARGET_PRODUCT") configFile = true ∧ noDefault configFile = false ∧
      lacksRequiredPath configFile = false ∧
      ¬ (layeredString configFile (env "TARGET_PRODUCT") "SDCLANG_PATH_2"
          (initialState SDClang env).sdclangPath2 = "" ∧ env "SDCLANG_PATH_2" = "") := by
    simp only [setSdclangVars_eq_ok_layered, layeredState, exists_and_left, exists_eq, and_true]
    have hne : env "SDCLANG_PATH" ≠ "" := by rw [he]; exact hZ
    constructor
    · rintro ⟨hw, hn, hl, -, h2⟩
      exact ⟨hw, hn, hl, h2⟩
    · rintro ⟨hw, hn, hl, h2⟩
      exact ⟨hw, hn, hl, fun h => hne h.2, h2⟩
  refine ⟨?_, hiff, ?_⟩
  · intro r hr
    have h := (evalVar_of_ok SDClang env aeFile configFile r c hr).1
    rw [h, hc, if_pos hZ]
  · intro hdoc h2
    rw [hiff]
    rcases hdoc with rfl | rfl <;>
      exact ⟨rfl, rfl, rfl, fun h => h2 h.2⟩

theorem primary_path_override_witness :
    (∃ r, setSdclangVars true (envOf [("SDCLANG_PATH", "Z"), ("SDCLANG_PATH_2", "Y")])
        .openFailed .openFailed = .ok r ∧
      evalVar r "SDClangBin" ⟨envOf [("SDCLANG_PATH", "Z")]⟩ = some (.ok "Z")) :=
  ⟨_, rfl,
    (primary_path_override true (envOf [("SDCLANG_PATH", "Z"), ("SDCLANG_PATH_2", "Y")])
      .openFailed .openFailed ⟨envOf [("SDCLANG_PATH", "Z")]⟩ "Z" (by decide) rfl rfl).1 _ rfl⟩

theorem primary_path_override_counterexample :
    setSdclangVars true (envOf [("SDCLANG_PATH", "Z")]) .openFailed .openFailed =
        .error (.msg "SDCLANG_PATH_2 can not be empty") ∧
      setSdclangVars true (envOf [("SDCLANG_PATH", "Z")]) .openFailed (.decoded (.map [])) =
        .error (.msg "Default block is required in the SD Clang config file") :=
  ⟨rfl, rfl⟩

/-! ### Required fields of the default block -/

/-- C4: a decoded document with no `default` block, or whose default block
lacks `SDCLANG_PATH` or `SDCLANG_PATH_2`, makes `setSdclangVars` abort, and with
one and the same panic for every environment, every initial `SDClang` and every
auto-enablement document: no environment override is consulted before the
required-field check, so none can rescue the run. -/
theorem required_fields_checked_before_environment (config : List (String × GoVal))
    (h : config.lookup "default" = none ∨
      ∃ devConfig, config.lookup "default" = some (.map devConfig) ∧
        (devConfig.lookup "SDCLANG_PATH" = none ∨ devConfig.lookup "SDCLANG_PATH_2" = none)) :
    ∃ e, ∀ (SDClang : Bool) (env : String → String) (aeFile : Load SdclangAEConfig),
      setSdclangVars SDClang env aeFile (.decoded (.map config)) = .error e := by
  rcases h with h | ⟨devConfig, hd, h⟩
  · exact ⟨.msg "Default block is required in the SD Clang config file", fun _ _ _ => by
      simp [setSdclangVars, loadSdclangConfig, assertMap, defaultBlock, h, bind, Except.bind]⟩
  · obtain ⟨e, he⟩ := defaultBlock_error_of_lacks config devConfig hd h
    exact ⟨e, fun _ _ _ => by
      simp [setSdclangVars, loadSdclangConfig, assertMap, he, bind, Except.bind]⟩

theorem required_fields_checked_before_environment_witness :
    ∃ e, ∀ (SDClang : Bool) (env : String → String) (aeFile : Load SdclangAEConfig),
      setSdclangVars SDClang env aeFile
        (.decoded (.map [("default", .map [("SDCLANG_PATH", .string "A")])])) = .error e :=
  required_fields_checked_before_environment
    [("default", .map [("SDCLANG_PATH", .string "A")])]
    (Or.inr ⟨[("SDCLANG_PATH", .string "A")], rfl, Or.inr rfl⟩)

/-! ### No document and no path -/

/-- C5: with the variant document missing or undecodable and both
`SDCLANG_PATH` and `SDCLANG_PATH_2` empty in the environment, `setSdclangVars`
aborts, whatever the other inputs; the panic is the primary-path sanity
check. -/
theorem setSdclangVars_aborts_without_document (SDClang : Bool) (env : String → String)
    (aeFile : Load SdclangAEConfig) (configFile : Load GoVal)
    (hdoc : configFile = .openFailed ∨ configFile = .decodeFailed)
    (hp : env "SDCLANG_PATH" = "") (_hp2 : env "SDCLANG_PATH_2" = "") :
    setSdclangVars SDClang env aeFile configFile =
      .error (.msg "SDCLANG_PATH can not be empty") := by
  rcases hdoc with rfl | rfl <;>
    simp [setSdclangVars, loadSdclangConfig, initialState, hp, bind, Except.bind]

theorem setSdclangVars_aborts_without_document_witness :
    setSdclangVars true (envOf [("TARGET_PRODUCT", "sdm845"), ("SDCLANG", "false")])
        (.decoded ⟨"-fuse-ae"⟩) .openFailed =
      .error (.msg "SDCLANG_PATH can not be empty") :=
  setSdclangVars_aborts_without_document true
    (envOf [("TARGET_PRODUCT", "sdm845"), ("SDCLANG", "false")])
    (.decoded ⟨"-fuse-ae"⟩) .openFailed (Or.inl rfl) rfl rfl

/-! ### The fatal paths -/

/-- C6 (amended): `setSdclangVars` aborts exactly when the decoded document
has no `default` entry, or its default block lacks `SDCLANG_PATH` or
`SDCLANG_PATH_2`, or a resolved path is empty while its environment variable is
empty, or a consulted value has the wrong JSON type (the document, the default
block or the product block is not an object, `SDCLANG` is not a boolean, a path
or flags field is not a string).  In every other case it completes and
registers exactly `SDClangBin`, `SDClangBin2`, `SDClangFlags`, `SDClangFlags2`. -/
theorem setSdclangVars_aborts_iff (SDClang : Bool) (env : String → String)
    (aeFile : Load SdclangAEConfig) (configFile : Load GoVal) :
    ((∃ e, setSdclangVars SDClang env aeFile configFile = .error e) ↔
      noDefault configFile = true ∨ lacksRequiredPath configFile = true ∨
      (layeredString configFile (env "TARGET_PRODUCT") "SDCLANG_PATH"
          (initialState SDClang env).sdclangPath = "" ∧ env "SDCLANG_PATH" = "") ∨
      (layeredString configFile (env "TARGET_PRODUCT") "SDCLANG_PATH_2"
          (initialState SDClang env).sdclangPath2 = "" ∧ env "SDCLANG_PATH_2" = "") ∨
      wellTyped (env "TARGET_PRODUCT") configFile = false) ∧
    (∀ r, setSdclangVars SDClang env aeFile configFile = .ok r →
      r.vars.map Prod.fst = ["SDClangBin", "SDClangBin2", "SDClangFlags", "SDClangFlags2"]) := by
  constructor
  · rw [isError_iff_not_ok]
    simp only [setSdclangVars_eq_ok_layered, layeredState]
    simp only [exists_and_left, exists_eq, and_true]
    cases noDefault configFile <;> cases lacksRequiredPath configFile <;>
      cases wellTyped (env "TARGET_PRODUCT") configFile <;>
      first
        | (simp; done)
        | (simp; tauto)
  · intro r hr
    obtain ⟨-, -, -, -, -, rfl⟩ := (setSdclangVars_eq_ok_layered _ _ _ _ _).mp hr
    rfl

theorem setSdclangVars_aborts_iff_counterexample :
    setSdclangVars true (envOf [("SDCLANG_PATH", "Z"), ("SDCLANG_PATH_2", "Y")]) .openFailed
        (.decoded (.map [("default", .map [("SDCLANG", .string "yes"),
          ("SDCLANG_PATH", .string "A"), ("SDCLANG_PATH_2", .string "B")])]))
      = .error .typeAssertion ∧
    noDefault (.decoded (.map [("default", .map [("SDCLANG", .string "yes"),
          ("SDCLANG_PATH", .string "A"), ("SDCLANG_PATH_2", .string "B")])])) = false ∧
    lacksRequiredPath (.decoded (.map [("default", .map [("SDCLANG", .string "yes"),
          ("SDCLANG_PATH", .string "A"), ("SDCLANG_PATH_2", .string "B")])])) = false ∧
    envOf [("SDCLANG_PATH", "Z"), ("SDCLANG_PATH_2", "Y")] "SDCLANG_PATH" ≠ "" ∧
    envOf [("SDCLANG_PATH", "Z"), ("SDCLANG_PATH_2", "Y")] "SDCLANG_PATH_2" ≠ "" :=
  ⟨rfl, rfl, rfl, by decide, by decide⟩

/-! ### Precedence for `SDClang` -/

/-- C7: after `setSdclangVars` completes from the compiled-in default,
`SDClang` is the boolean parsed from the `SDCLANG` environment variable when
that variable is non-empty and parses; otherwise the product block's `SDCLANG`
when a document was decoded and that block has the key; otherwise the default
block's `SDCLANG` when it has the key; otherwise `true`.  An `SDCLANG` value
that does not parse changes nothing: the run behaves exactly as with the
variable unset, so it neither aborts because of it nor alters `SDClang`. -/
theorem SDClang_precedence (env : String → String)
    (aeFile : Load SdclangAEConfig) (configFile : Load GoVal) :
    (∀ r, setSdclangVars SDClangDefault env aeFile configFile = .ok r →
      r.SDClang =
        match (if env "SDCLANG" ≠ "" then ParseBool (env "SDCLANG") else none) with
        | some override => override
        | none => layeredBool configFile (env "TARGET_PRODUCT") true) ∧
    (ParseBool (env "SDCLANG") = none →
      setSdclangVars SDClangDefault env aeFile configFile =
        setSdclangVars SDClangDefault (Function.update env "SDCLANG" "") aeFile configFile) := by
  constructor
  · intro r hr
    obtain ⟨-, -, -, -, -, rfl⟩ := (setSdclangVars_eq_ok_layered _ _ _ _ _).mp hr
    simp only [overrideSDClang, layeredState, initialState, SDClangDefault]
    split_ifs with h
    · cases ParseBool (env "SDCLANG") <;> rfl
    · rfl
  · intro hp
    have h1 : Function.update env "SDCLANG" "" "TARGET_PRODUCT" = env "TARGET_PRODUCT" :=
      Function.update_noteq (by decide) _ _
    have h2 : Function.update env "SDCLANG" "" "SDCLANG_PATH" = env "SDCLANG_PATH" :=
      Function.update_noteq (by decide) _ _
    have h3 : Function.update env "SDCLANG" "" "SDCLANG_PATH_2" = env "SDCLANG_PATH_2" :=
      Function.update_noteq (by decide) _ _
    have h4 : Function.update env "SDCLANG" "" "SDCLANG_PATH2" = env "SDCLANG_PATH2" :=
      Function.update_noteq (by decide) _ _
    have h5 : Function.update env "SDCLANG" "" "SDCLANG" = "" := Function.update_same _ _ _
    have hst : initialState SDClangDefault (Function.update env "SDCLANG" "") =
        initialState SDClangDefault env := by
      simp only [initialState, h2, h4]
    have hov : ∀ b, overrideSDClang (Function.update env "SDCLANG" "") b =
        overrideSDClang env b := by
      intro b
      simp [overrideSDClang, h5, hp]
    simp only [setSdclangVars, h1, h2, h3, hst, hov]

theorem SDClang_precedence_witness :
    (∃ r, setSdclangVars SDClangDefault
        (envOf [("SDCLANG", "maybe"), ("TARGET_PRODUCT", "sdm845")]) .openFailed
        (.decoded (.map [("default", .map [("SDCLANG", .bool false),
          ("SDCLANG_PATH", .string "A"), ("SDCLANG_PATH_2", .string "B")])])) = .ok r ∧
      r.SDClang = false) ∧
    setSdclangVars SDClangDefault
        (envOf [("SDCLANG", "maybe"), ("TARGET_PRODUCT", "sdm845")]) .openFailed
        (.decoded (.map [("default", .map [("SDCLANG", .bool false),
          ("SDCLANG_PATH", .string "A"), ("SDCLANG_PATH_2", .string "B")])])) =
      setSdclangVars SDClangDefault
        (Function.update (envOf [("SDCLANG", "maybe"), ("TARGET_PRODUCT", "sdm845")])
          "SDCLANG" "") .openFailed
        (.decoded (.map [("default", .map [("SDCLANG", .bool false),
          ("SDCLANG_PATH", .string "A"), ("SDCLANG_PATH_2", .string "B")])])) :=
  ⟨⟨_, rfl,
    (SDClang_precedence (envOf [("SDCLANG", "maybe"), ("TARGET_PRODUCT", "sdm845")]) .openFailed
      (.decoded (.map [("default", .map [("SDCLANG", .bool false),
        ("SDCLANG_PATH", .string "A"), ("SDCLANG_PATH_2", .string "B")])]))).1 _ rfl⟩,
   (SDClang_precedence (envOf [("SDCLANG", "maybe"), ("TARGET_PRODUCT", "sdm845")]) .openFailed
      (.decoded (.map [("default", .map [("SDCLANG", .bool false),
        ("SDCLANG_PATH", .string "A"), ("SDCLANG_PATH_2", .string "B")])]))).2 rfl⟩

/-! ### The deferred variables -/

/-- C8: after a completed resolution, under every runtime configuration `c`,
`SDClangBin` is `c.Getenv "SDCLANG_PATH"` when that is non-empty and otherwise
the path resolved at initialization (the JSON layers over the value on entry),
`SDClangBin2` likewise with `SDCLANG_PATH_2`, `SDClangFlags` is
`c.Getenv "SDCLANG_COMMON_FLAGS"` verbatim when that is non-empty and otherwise
the auto-enablement flag, a space, and the flags resolved from the JSON layers
(or the empty string), and `SDClangFlags2` likewise with
`SDCLANG_COMMON_FLAGS_2`.  Each value is a function of `c` alone, so evaluating
twice with the same `c` gives the same result. -/
theorem deferred_variables_recheck_environment (SDClang : Bool) (env : String → String)
    (aeFile : Load SdclangAEConfig) (configFile : Load GoVal) (r : SdclangResult) (c : Config)
    (hr : setSdclangVars SDClang env aeFile configFile = .ok r) :
    evalVar r "SDClangBin" c = some (.ok
      (if c.Getenv "SDCLANG_PATH" ≠ "" then c.Getenv "SDCLANG_PATH"
       else layeredString configFile (env "TARGET_PRODUCT") "SDCLANG_PATH"
         (initialState SDClang env).sdclangPath)) ∧
    evalVar r "SDClangBin2" c = some (.ok
      (if c.Getenv "SDCLANG_PATH_2" ≠ "" then c.Getenv "SDCLANG_PATH_2"
       else layeredString configFile (env "TARGET_PRODUCT") "SDCLANG_PATH_2"
         (initialState SDClang env).sdclangPath2)) ∧
    evalVar r "SDClangFlags" c = some (.ok
      (if c.Getenv "SDCLANG_COMMON_FLAGS" ≠ "" then c.Getenv "SDCLANG_COMMON_FLAGS"
       else loadAEFlag aeFile ++ " " ++
         layeredString configFile (env "TARGET_PRODUCT") "SDCLANG_FLAGS" "")) ∧
    evalVar r "SDClangFlags2" c = some (.ok
      (if c.Getenv "SDCLANG_COMMON_FLAGS_2" ≠ "" then c.Getenv "SDCLANG_COMMON_FLAGS_2"
       else loadAEFlag aeFile ++ " " ++
         layeredString configFile (env "TARGET_PRODUCT") "SDCLANG_FLAGS_2" "")) :=
  evalVar_of_ok SDClang env aeFile configFile r c hr

theorem deferred_variables_recheck_environment_witness :
    ∃ r, setSdclangVars true (envOf []) (.decoded ⟨"-ae"⟩)
        (.decoded (.map [("default", .map [("SDCLANG_PATH", .string "A"),
          ("SDCLANG_PATH_2", .string "B"), ("SDCLANG_FLAGS", .string "-O3")])])) = .ok r ∧
      evalVar r "SDClangBin" ⟨envOf [("SDCLANG_PATH_2", "Y")]⟩ = some (.ok "A") ∧
      evalVar r "SDClangBin2" ⟨envOf [("SDCLANG_PATH_2", "Y")]⟩ = some (.ok "Y") ∧
      evalVar r "SDClangFlags" ⟨envOf [("SDCLANG_PATH_2", "Y")]⟩ = some (.ok "-ae -O3") ∧
      evalVar r "SDClangFlags2" ⟨envOf [("SDCLANG_PATH_2", "Y")]⟩ = some (.ok "-ae ") :=
  ⟨_, rfl, deferred_variables_recheck_environment true (envOf []) (.decoded ⟨"-ae"⟩)
    (.decoded (.map [("default", .map [("SDCLANG_PATH", .string "A"),
      ("SDCLANG_PATH_2", .string "B"), ("SDCLANG_FLAGS", .string "-O3")])]))
    _ ⟨envOf [("SDCLANG_PATH_2", "Y")]⟩ rfl⟩

/-! ### The panic of `replaceFirst` -/

/-- C9: at the slice `["a"]` with `from = "b"` and `to = "c"`, `replaceFirst`
panics with the error built from `"Expected %q, found %q"` and the arguments
`from` and `to`; the value actually found, `"a"`, is not among them.  The slice
is left unchanged. -/
theorem replaceFirst_reports_replacement :
    replaceFirst ["a"] "b" "c" = (some (.errorf "Expected %q, found %q" ["b", "c"]), ["a"]) ∧
      "a" ∉ ["b", "c"] := by
  decide

/-! ### Completed runs have non-empty paths -/

/-- C10: whenever `setSdclangVars` completes and the runtime configuration
agrees with the process environment on `SDCLANG_PATH` and `SDCLANG_PATH_2`,
`SDClangBin` and `SDClangBin2` both evaluate, without error, to non-empty
strings. -/
theorem completed_paths_nonempty (SDClang : Bool) (env : String → String)
    (aeFile : Load SdclangAEConfig) (configFile : Load GoVal) (r : SdclangResult) (c : Config)
    (hr : setSdclangVars SDClang env aeFile configFile = .ok r)
    (h1 : c.Getenv "SDCLANG_PATH" = env "SDCLANG_PATH")
    (h2 : c.Getenv "SDCLANG_PATH_2" = env "SDCLANG_PATH_2") :
    ∃ p p2, evalVar r "SDClangBin" c = some (.ok p) ∧ p ≠ "" ∧
      evalVar r "SDClangBin2" c = some (.ok p2) ∧ p2 ≠ "" := by
  obtain ⟨st, -, n1, n2, rfl⟩ := (setSdclangVars_eq_ok _ _ _ _ _).mp hr
  have e1 : evalVar ⟨overrideSDClang env st.SDClang,
      [("SDClangBin", SDClangBin st.sdclangPath),
       ("SDClangBin2", SDClangBin2 st.sdclangPath2),
       ("SDClangFlags", SDClangFlags (loadAEFlag aeFile) st.sdclangFlags),
       ("SDClangFlags2", SDClangFlags2 (loadAEFlag aeFile) st.sdclangFlags2)]⟩
      "SDClangBin" c = some (SDClangBin st.sdclangPath c) := rfl
  have e2 : evalVar ⟨overrideSDClang env st.SDClang,
      [("SDClangBin", SDClangBin st.sdclangPath),
       ("SDClangBin2", SDClangBin2 st.sdclangPath2),
       ("SDClangFlags", SDClangFlags (loadAEFlag aeFile) st.sdclangFlags),
       ("SDClangFlags2", SDClangFlags2 (loadAEFlag aeFile) st.sdclangFlags2)]⟩
      "SDClangBin2" c = some (SDClangBin2 st.sdclangPath2 c) := rfl
  rw [e1, e2]
  unfold SDClangBin SDClangBin2
  by_cases hc1 : c.Getenv "SDCLANG_PATH" = "" <;> by_cases hc2 : c.Getenv "SDCLANG_PATH_2" = ""
  · refine ⟨st.sdclangPath, st.sdclangPath2, by simp [hc1], ?_, by simp [hc2], ?_⟩
    · intro h; exact n1 ⟨h, h1 ▸ hc1⟩
    · intro h; exact n2 ⟨h, h2 ▸ hc2⟩
  · refine ⟨st.sdclangPath, _, by simp [hc1], ?_, by simp [hc2], hc2⟩
    intro h; exact n1 ⟨h, h1 ▸ hc1⟩
  · refine ⟨_, st.sdclangPath2, by simp [hc1], hc1, by simp [hc2], ?_⟩
    intro h; exact n2 ⟨h, h2 ▸ hc2⟩
  · exact ⟨_, _, by simp [hc1], hc1, by simp [hc2], hc2⟩

theorem completed_paths_nonempty_witness :
    ∃ r, setSdclangVars true (envOf [("SDCLANG_PATH_2", "Y")]) .openFailed
        (.decoded (.map [("default", .map [("SDCLANG_PATH", .string "A"),
          ("SDCLANG_PATH_2", .string "B")])])) = .ok r ∧
      ∃ p p2,
        evalVar r "SDClangBin" ⟨envOf [("SDCLANG_PATH_2", "Y")]⟩ = some (.ok p) ∧ p ≠ "" ∧
        evalVar r "SDClangBin2" ⟨envOf [("SDCLANG_PATH_2", "Y")]⟩ = some (.ok p2) ∧ p2 ≠ "" :=
  ⟨_, rfl, completed_paths_nonempty true (envOf [("SDCLANG_PATH_2", "Y")]) .openFailed
    (.decoded (.map [("default", .map [("SDCLANG_PATH", .string "A"),
      ("SDCLANG_PATH_2", .string "B")])]))
    _ ⟨envOf [("SDCLANG_PATH_2", "Y")]⟩ rfl rfl rfl⟩

end CcConfig
